import Mathlib

/-
  Verification of the TalonAI agentic planning loop (TalonAIApp: planner.py,
  agent_loop.py, info.py, diagnostic.py, mod_coach.py, build_planner.py,
  response_formatter.py, state.py, views.py).

  Shallow embedding conventions:
  * Python/JSON values are modelled by the inductive `Json`.  A Python dict
    produced by `json.loads` is modelled as an association list with unique
    keys (CPython deduplicates keys while parsing).
  * `json.loads` itself is an external library function; it is abstracted as
    a parameter `loads : String → Except String Json` (the `String` in the
    error is `str(e)` of the raised `json.JSONDecodeError`).  Theorems
    quantify over all `loads` behaviours; concrete instances used in
    counterexamples agree with CPython on the strings they are applied to.
  * The completion service (`call_claude`) is abstracted as an oracle
    `Nat → Except String String`, indexed by the sequential call number of
    the turn; the error carries the exception text.  Prompt text is not
    modelled: the oracle may behave arbitrarily at each call.
  * Python exceptions are values of `PyErr`; `Except PyErr` models
    "may raise".  A function whose Python body is entirely wrapped in
    `except Exception` is total and gets a plain return type.
  * Python `str.strip` is modelled over the ASCII whitespace characters
    recognised by `Char.isWhitespace`; the fence markers and payloads the
    code manipulates contain no exotic whitespace.
-/

namespace TalonAI

/-- A Python/JSON value as produced by json.loads (plus None for absent data). -/
inductive Json where
  | null : Json
  | bool (b : Bool) : Json
  | num (n : Int) : Json
  | str (s : String) : Json
  | arr (elems : List Json) : Json
  | obj (fields : List (String × Json)) : Json

/-- A modelled Python exception, carrying str(e). -/
inductive PyErr where
  | jsonDecode (msg : String) : PyErr
  | attribute (msg : String) : PyErr
  | typeErr (msg : String) : PyErr
  | valueErr (msg : String) : PyErr
  | completion (msg : String) : PyErr

/-- Python type name of a value, as it appears in error messages. -/
def Json.pyTypeName : Json → String
  | .null => "NoneType"
  | .bool _ => "bool"
  | .num _ => "int"
  | .str _ => "str"
  | .arr _ => "list"
  | .obj _ => "dict"

/-- str(e) of the AttributeError raised by `x.attr` on a value lacking the
attribute. -/
def noAttrMsg (j : Json) (attr : String) : String :=
  "'" ++ j.pyTypeName ++ "' object has no attribute '" ++ attr ++ "'"

/-- The AttributeError raised by `x.attr` on a value lacking the attribute. -/
def noAttr (j : Json) (attr : String) : PyErr :=
  .attribute (noAttrMsg j attr)

/-- Join strings with a separator (Python str.join). -/
def joinSep (sep : String) : List String → String
  | [] => ""
  | [x] => x
  | x :: rest => x ++ sep ++ joinSep sep rest

/-- Python str(n) for our integers. -/
def intPyStr (n : Int) : String :=
  if n < 0 then "-" ++ Nat.repr n.natAbs else Nat.repr n.natAbs

mutual

/-- Python repr() of a value (string escaping inside repr is not modelled;
no string the code builds is repr-ed back). -/
def Json.pyRepr : Json → String
  | .null => "None"
  | .bool b => if b then "True" else "False"
  | .num n => intPyStr n
  | .str s => "'" ++ s ++ "'"
  | .arr xs => "[" ++ Json.pyReprArr xs ++ "]"
  | .obj fs => "\x7b" ++ Json.pyReprObj fs ++ "\x7d"

/-- repr of the elements of a list, comma separated. -/
def Json.pyReprArr : List Json → String
  | [] => ""
  | [j] => Json.pyRepr j
  | j :: rest => Json.pyRepr j ++ ", " ++ Json.pyReprArr rest

/-- repr of the entries of a dict, comma separated. -/
def Json.pyReprObj : List (String × Json) → String
  | [] => ""
  | [(k, v)] => "'" ++ k ++ "': " ++ Json.pyRepr v
  | (k, v) :: rest => "'" ++ k ++ "': " ++ Json.pyRepr v ++ ", " ++ Json.pyReprObj rest

end

/-- Python str() of a value (top-level strings are not quoted). -/
def Json.pyStr : Json → String
  | .str s => s
  | j => j.pyRepr

/-- Python truthiness of a value. -/
def Json.truthy : Json → Bool
  | .null => false
  | .bool b => b
  | .num n => n != 0
  | .str s => !s.data.isEmpty
  | .arr xs => !xs.isEmpty
  | .obj fs => !fs.isEmpty

/-- Python len(), raising TypeError on unsized values. -/
def Json.pyLen : Json → Except PyErr Nat
  | .str s => .ok s.data.length
  | .arr xs => .ok xs.length
  | .obj fs => .ok fs.length
  | j => .error (.typeErr ("object of type '" ++ j.pyTypeName ++ "' has no len()"))

/-- Lookup in a dict (association list with unique keys). -/
def jget : List (String × Json) → String → Option Json
  | [], _ => none
  | (k, v) :: rest, key => if k = key then some v else jget rest key

/-- Python dict.get(key, default). -/
def jgetD (fields : List (String × Json)) (key : String) (d : Json) : Json :=
  (jget fields key).getD d

/-- `j.get key d` when `j` is known to be a dict; default otherwise (call
sites guard with `isObj`). -/
def Json.getD (j : Json) (key : String) (d : Json) : Json :=
  match j with
  | .obj fs => jgetD fs key d
  | _ => d

/-- Whether a value is a dict. -/
def Json.isObj : Json → Bool
  | .obj _ => true
  | _ => false

/-- Whether the needle is a prefix of the haystack (char lists). -/
def charsPrefix : List Char → List Char → Bool
  | [], _ => true
  | _ :: _, [] => false
  | a :: as, b :: bs => a == b && charsPrefix as bs

/-- Whether the needle occurs in the haystack (Python `needle in hay`). -/
def charsContains (needle : List Char) : List Char → Bool
  | [] => charsPrefix needle []
  | c :: rest => charsPrefix needle (c :: rest) || charsContains needle rest

/-- Python `pat in s` on strings. -/
def pyContains (s pat : String) : Bool :=
  charsContains pat.data s.data

/-- Python s.lower() (ASCII). -/
def pyLower (s : String) : String :=
  String.mk (s.data.map Char.toLower)

/-- Drop leading whitespace of a char list. -/
def trimLeftChars : List Char → List Char
  | [] => []
  | c :: rest => if c.isWhitespace then trimLeftChars rest else c :: rest

/-- Python s.strip(). -/
def pyStrip (s : String) : String :=
  String.mk ((trimLeftChars (trimLeftChars s.data).reverse).reverse)

/-- Python s.startswith(pre). -/
def pyStartsWith (s pre : String) : Bool :=
  charsPrefix pre.data s.data

/-- Python s.endswith(suf). -/
def pyEndsWith (s suf : String) : Bool :=
  charsPrefix suf.data.reverse s.data.reverse

/-- Python s[n:]. -/
def pyDrop (s : String) (n : Nat) : String :=
  String.mk (s.data.drop n)

/-- Python s[:-n] (for n ≤ len it drops the last n chars; robust like Python slicing). -/
def pyDropRight (s : String) (n : Nat) : String :=
  String.mk ((s.data.reverse.drop n).reverse)

/-- Python str() of a list of strings, as `str(state.get("agent_trace", []))`
produces it: elements repr-ed with single quotes, comma separated, in
brackets. -/
def pyStrOfTraceList (trace : List String) : String :=
  "[" ++ joinSep ", " (trace.map (fun s => "'" ++ s ++ "'")) ++ "]"

/-- json.loads abstracted: either the decoded value or str(e) of the
JSONDecodeError. -/
abbrev Loads := String → Except String Json

/-- The completion service abstracted: result of the n-th call_claude call of
the turn (text, or str(e) of the raised exception). -/
abbrev Oracle := Nat → Except String String

/-- The fence-stripping prelude shared by parse_agentic_output,
parse_planner_output, parse_info_initial, parse_diagnostic_output,
parse_modcoach_output and parse_buildplanner_output: strip, drop a leading
markdown fence, drop a trailing one, strip again. -/
def stripFences (s : String) : String :=
  let c := pyStrip s
  let c := if pyStartsWith c "```json" then pyDrop c 7 else c
  let c := if pyStartsWith c "```" then pyDrop c 3 else c
  let c := if pyEndsWith c "```" then pyDropRight c 3 else c
  pyStrip c

/-- The inline cleaning used by the four rewritten pipelines
(info_pipeline, diagnostic_pipeline, mod_coach_pipeline,
buildplanner_pipeline): strip, then slice [7:-3] after a ```json fence or
[3:-3] after a bare ``` fence (unconditionally chopping the last 3 chars). -/
def stripFencesSlice (s : String) : String :=
  let c := pyStrip s
  if pyStartsWith c "```json" then pyDropRight (pyDrop c 7) 3
  else if pyStartsWith c "```" then pyDropRight (pyDrop c 3) 3
  else c

/-- The session state dict (state.py AgentState as seeded by views.py, plus
every key the pipelines write).  Keys a run may never have written hold
`Json.null`, matching the seed's explicit None values;
`followup_recommendations` defaults to the empty list because the only
reader, run_agent_system, does `state.get("followup_recommendations", [])`
and no code of the serving path ever writes that key. -/
structure AgentState where
  query : String
  user_id : String
  session_id : String
  car_profile : Json
  mod_recommendations : Json := Json.null
  symptom_summary : Json := Json.null
  build_plan : Json := Json.null
  final_message : Json := Json.null
  agent_trace : List String := []
  flags : Json := Json.obj []
  info_answer : Json := Json.null
  tool_trace : List Json := []
  followup_recommendations : Json := Json.arr []
  info_car_specific : Json := Json.null
  info_response_type : Json := Json.null
  info_confidence : Json := Json.null
  most_likely_cause : Json := Json.null
  diagnosis_confidence : Json := Json.null
  possible_causes : Json := Json.null
  diagnostic_steps : Json := Json.null
  recommended_actions : Json := Json.null
  safety_concerns : Json := Json.null
  total_mod_cost : Json := Json.null
  expected_results : Json := Json.null
  installation_order : Json := Json.null
  mod_notes : Json := Json.null
  total_timeline : Json := Json.null
  total_build_cost : Json := Json.null
  final_power_estimate : Json := Json.null
  build_philosophy : Json := Json.null
  build_considerations : Json := Json.null

/-- The fresh state views.py builds for a turn (all result slots None, empty
traces and flags). -/
def seedState (query user_id session_id : String) (car_profile : Json) : AgentState :=
  { query := query, user_id := user_id, session_id := session_id,
    car_profile := car_profile }

/-- info.py parse_info_initial.  Only json.JSONDecodeError is caught; when
the decoded value is not a dict, `.get` raises AttributeError, which
escapes. -/
def parse_info_initial (loads : Loads) (output : String) : Except PyErr (List (String × Json)) :=
  match loads (stripFences output) with
  | .error _ => .ok [("answer", Json.str ""), ("tool_call", Json.null)]
  | .ok parsed =>
    match parsed with
    | .obj fs =>
        .ok [("answer", jgetD fs "answer" (Json.str "")),
             ("tool_call", jgetD fs "tool_call" Json.null)]
    | j => .error (noAttr j "get")

/-- diagnostic.py parse_diagnostic_output (same catch-only-JSONDecodeError
shape; the failure payload carries error: "parse_error"). -/
def parse_diagnostic_output (loads : Loads) (output : String) : Except PyErr (List (String × Json)) :=
  match loads (stripFences output) with
  | .error _ =>
      .ok [("symptom_summary", Json.str ""),
           ("followup_recommendations", Json.arr []),
           ("error", Json.str "parse_error")]
  | .ok parsed =>
    match parsed with
    | .obj fs =>
        .ok [("symptom_summary", jgetD fs "symptom_summary" (Json.str "")),
             ("followup_recommendations", jgetD fs "followup_recommendations" (Json.arr []))]
    | j => .error (noAttr j "get")

/-- mod_coach.py parse_modcoach_output (failure payload flags parse_error in
additional_flags). -/
def parse_modcoach_output (loads : Loads) (output : String) : Except PyErr (List (String × Json)) :=
  match loads (stripFences output) with
  | .error _ =>
      .ok [("mod_recommendations", Json.arr []),
           ("additional_flags", Json.obj [("parse_error", Json.bool true)]),
           ("tool_call", Json.null)]
  | .ok parsed =>
    match parsed with
    | .obj fs =>
        .ok [("mod_recommendations", jgetD fs "mod_recommendations" (Json.arr [])),
             ("additional_flags", jgetD fs "additional_flags" (Json.obj [])),
             ("tool_call", jgetD fs "tool_call" Json.null)]
    | j => .error (noAttr j "get")

/-- build_planner.py parse_buildplanner_output. -/
def parse_buildplanner_output (loads : Loads) (raw : String) : Except PyErr (List (String × Json)) :=
  match loads (stripFences raw) with
  | .error _ =>
      .ok [("build_plan", Json.arr []),
           ("tool_call", Json.null),
           ("error", Json.str "parse_error")]
  | .ok parsed =>
    match parsed with
    | .obj fs =>
        .ok [("build_plan", jgetD fs "build_plan" (Json.arr [])),
             ("tool_call", jgetD fs "tool_call" Json.null)]
    | j => .error (noAttr j "get")

/-- A planner decision as parse_agentic_output returns it. -/
structure Decision where
  action : String
  reasoning : Json

/-- The closed action set of planner.py parse_agentic_output. -/
def allowed_actions : List String :=
  ["modcoach", "diagnostic", "buildplanner", "info", "end"]

/-- planner.py parse_agentic_output.  The whole body is wrapped in
`except Exception`, so every failure (decode error, `.get` on a non-dict,
missing or invalid action) collapses to the end decision with
"Error parsing response: " followed by str(e). -/
def parse_agentic_output (loads : Loads) (response : String) : Decision :=
  match loads (stripFences response) with
  | .error msg => ⟨"end", Json.str ("Error parsing response: " ++ msg)⟩
  | .ok parsed =>
    match parsed with
    | .obj fs =>
      let reasoning := jgetD fs "reasoning" (Json.str "")
      match jget fs "action" with
      | some (Json.str a) =>
          if a ∈ allowed_actions then ⟨a, reasoning⟩
          else ⟨"end", Json.str ("Error parsing response: Invalid action: " ++ a)⟩
      | some v =>
          ⟨"end", Json.str ("Error parsing response: Invalid action: " ++ v.pyStr)⟩
      | none =>
          ⟨"end", Json.str ("Error parsing response: Invalid action: None")⟩
    | j => ⟨"end", Json.str ("Error parsing response: " ++ noAttrMsg j "get")⟩

/-- Canned fallback of info_pipeline's except-branch. -/
def infoFallbackMsg : String :=
  "I'm your automotive assistant! I can help with car information, modifications, diagnostics, and build planning. What would you like to know?"

/-- Default used by info_pipeline when the decoded dict has no "answer". -/
def infoAnswerDefault : String :=
  "I'd be happy to help with automotive questions!"

/-- info.py info_pipeline.  The whole body after prompt construction sits in
try/except Exception, so the pipeline is total; the k argument is the oracle
cursor (index of the next call_claude call) and the returned Nat the cursor
after the pipeline. -/
def info_pipeline (loads : Loads) (oracle : Oracle) (k : Nat) (st : AgentState) :
    AgentState × Nat :=
  match oracle k with
  | .error _ => ({ st with info_answer := Json.str infoFallbackMsg }, k + 1)
  | .ok response =>
    match loads (stripFencesSlice response) with
    | .error _ => ({ st with info_answer := Json.str infoFallbackMsg }, k + 1)
    | .ok result =>
      match result with
      | .obj fs =>
          ({ st with
              info_answer := jgetD fs "answer" (Json.str infoAnswerDefault),
              info_car_specific := jgetD fs "car_specific" (Json.bool false),
              info_response_type := jgetD fs "response_type" (Json.str "general"),
              info_confidence := jgetD fs "confidence" (Json.str "medium") }, k + 1)
      | _ => ({ st with info_answer := Json.str infoFallbackMsg }, k + 1)

/-- Canned fallback of diagnostic_pipeline's except-branch. -/
def diagFallbackMsg : String :=
  "I'd be happy to help diagnose car issues. Could you describe the specific symptoms you're experiencing?"

/-- diagnostic.py diagnostic_pipeline.  `result.get("diagnosis", {})` may
itself be a non-dict, in which case the next `.get` raises AttributeError
and the except-branch writes only symptom_summary. -/
def diagnostic_pipeline (loads : Loads) (oracle : Oracle) (k : Nat) (st : AgentState) :
    AgentState × Nat :=
  match oracle k with
  | .error _ => ({ st with symptom_summary := Json.str diagFallbackMsg }, k + 1)
  | .ok response =>
    match loads (stripFencesSlice response) with
    | .error _ => ({ st with symptom_summary := Json.str diagFallbackMsg }, k + 1)
    | .ok result =>
      match result with
      | .obj fs =>
        match jgetD fs "diagnosis" (Json.obj []) with
        | .obj ds =>
            ({ st with
                symptom_summary := jgetD ds "explanation" (Json.str ""),
                most_likely_cause := jgetD ds "most_likely_cause" (Json.str ""),
                diagnosis_confidence := jgetD ds "confidence" (Json.str "medium"),
                possible_causes := jgetD fs "possible_causes" (Json.arr []),
                diagnostic_steps := jgetD fs "diagnostic_steps" (Json.arr []),
                recommended_actions := jgetD fs "recommended_actions" (Json.arr []),
                safety_concerns := jgetD fs "safety_concerns" (Json.arr []) }, k + 1)
        | _ => ({ st with symptom_summary := Json.str diagFallbackMsg }, k + 1)
      | _ => ({ st with symptom_summary := Json.str diagFallbackMsg }, k + 1)

/-- Canned fallback of mod_coach_pipeline's except-branch. -/
def modFallbackList : Json :=
  Json.arr [Json.obj
    [("name", Json.str "Performance Air Filter"),
     ("type", Json.str "intake"),
     ("justification", Json.str "Easy first modification with immediate throttle response improvement")]]

/-- mod_coach.py mod_coach_pipeline. -/
def mod_coach_pipeline (loads : Loads) (oracle : Oracle) (k : Nat) (st : AgentState) :
    AgentState × Nat :=
  match oracle k with
  | .error _ => ({ st with mod_recommendations := modFallbackList }, k + 1)
  | .ok response =>
    match loads (stripFencesSlice response) with
    | .error _ => ({ st with mod_recommendations := modFallbackList }, k + 1)
    | .ok result =>
      match result with
      | .obj fs =>
          ({ st with
              mod_recommendations := jgetD fs "recommendations" (Json.arr []),
              total_mod_cost := jgetD fs "total_estimated_cost" (Json.str ""),
              expected_results := jgetD fs "expected_results" (Json.str ""),
              installation_order := jgetD fs "installation_order" (Json.arr []),
              mod_notes := jgetD fs "important_notes" (Json.arr []) }, k + 1)
      | _ => ({ st with mod_recommendations := modFallbackList }, k + 1)

/-- Canned fallback of buildplanner_pipeline's except-branch. -/
def buildFallbackList : Json :=
  Json.arr [Json.obj
    [("stage", Json.num 1),
     ("name", Json.str "Foundation Stage"),
     ("modifications", Json.arr [Json.obj
       [("name", Json.str "Performance Air Filter"),
        ("justification", Json.str "Starting point for performance improvements")]])]]

/-- build_planner.py buildplanner_pipeline. -/
def buildplanner_pipeline (loads : Loads) (oracle : Oracle) (k : Nat) (st : AgentState) :
    AgentState × Nat :=
  match oracle k with
  | .error _ => ({ st with build_plan := buildFallbackList }, k + 1)
  | .ok response =>
    match loads (stripFencesSlice response) with
    | .error _ => ({ st with build_plan := buildFallbackList }, k + 1)
    | .ok result =>
      match result with
      | .obj fs =>
          ({ st with
              build_plan := jgetD fs "build_plan" (Json.arr []),
              total_timeline := jgetD fs "total_timeline" (Json.str ""),
              total_build_cost := jgetD fs "total_cost" (Json.str ""),
              final_power_estimate := jgetD fs "final_power_estimate" (Json.str ""),
              build_philosophy := jgetD fs "build_philosophy" (Json.str ""),
              build_considerations := jgetD fs "important_considerations" (Json.arr []) }, k + 1)
      | _ => ({ st with build_plan := buildFallbackList }, k + 1)

/-- The trace entry the agentic planner appends each iteration:
f"AgenticPlanner[ iteration ] → action : reasoning". -/
def planTraceEntry (iteration : Nat) (d : Decision) : String :=
  "AgenticPlanner[" ++ Nat.repr iteration ++ "] → " ++ d.action ++ ": " ++ d.reasoning.pyStr

/-- The message the planner's end-branch writes when final_message is falsy. -/
def sessionCompleteMsg : String :=
  "Session complete. Happy driving!"

/-- The message forced after the iteration cap. -/
def maxIterMsg : String :=
  "I've reached the maximum number of planning iterations. Please try rephrasing your question if you need more help."

/-- Append an entry to agent_trace. -/
def appendTrace (st : AgentState) (entry : String) : AgentState :=
  { st with agent_trace := st.agent_trace ++ [entry] }

/-- Result of the planner's while-loop: the state (or a propagated
exception), the final value of the Python variable `iteration`, the oracle
cursor, and how many sub-agent pipelines were dispatched. -/
structure PlanLoopOut where
  res : Except PyErr AgentState
  iteration : Nat
  k : Nat
  sub : Nat

/-- planner.py run_agentic_planner's `while iteration < max_iterations` loop,
with `remaining = max_iterations - iteration` as fuel.  Each pass increments
iteration, calls call_claude (whose exception propagates uncaught), parses
the decision, appends the trace entry, and dispatches; the end action breaks
after defaulting a falsy final_message. -/
def planLoop (loads : Loads) (oracle : Oracle) :
    Nat → Nat → Nat → Nat → AgentState → PlanLoopOut
  | 0, it, k, sub, st => ⟨.ok st, it, k, sub⟩
  | r + 1, it, k, sub, st =>
    match oracle k with
    | .error msg => ⟨.error (PyErr.completion msg), it + 1, k, sub⟩
    | .ok raw =>
      let d := parse_agentic_output loads raw
      let st1 := appendTrace st (planTraceEntry (it + 1) d)
      if d.action = "modcoach" then
        let p := mod_coach_pipeline loads oracle (k + 1) st1
        planLoop loads oracle r (it + 1) p.2 (sub + 1) p.1
      else if d.action = "diagnostic" then
        let p := diagnostic_pipeline loads oracle (k + 1) st1
        planLoop loads oracle r (it + 1) p.2 (sub + 1) p.1
      else if d.action = "buildplanner" then
        let p := buildplanner_pipeline loads oracle (k + 1) st1
        planLoop loads oracle r (it + 1) p.2 (sub + 1) p.1
      else if d.action = "info" then
        let p := info_pipeline loads oracle (k + 1) st1
        planLoop loads oracle r (it + 1) p.2 (sub + 1) p.1
      else if d.action = "end" then
        let st2 := if st1.final_message.truthy then st1
                   else { st1 with final_message := Json.str sessionCompleteMsg }
        ⟨.ok st2, it + 1, k + 1, sub⟩
      else
        planLoop loads oracle r (it + 1) (k + 1) sub st1

/-- What run_agentic_planner returns: the state (or propagated exception),
the oracle cursor after it, and the number of sub-agent dispatches. -/
structure PlannerOut where
  res : Except PyErr AgentState
  k : Nat
  sub : Nat

/-- planner.py run_agentic_planner: runs the loop with max_iterations = 5,
then — on every non-raising exit, including a break on the 5th iteration —
overwrites final_message with the max-iterations notice when
iteration >= max_iterations.  No trace entry is appended there (the cap is
only printed to stdout). -/
def run_agentic_planner (loads : Loads) (oracle : Oracle) (k : Nat) (st : AgentState) :
    PlannerOut :=
  let o := planLoop loads oracle 5 0 k 0 st
  match o.res with
  | .error e => ⟨.error e, o.k, o.sub⟩
  | .ok st1 =>
      if 5 ≤ o.iteration then
        ⟨.ok { st1 with final_message := Json.str maxIterMsg }, o.k, o.sub⟩
      else ⟨.ok st1, o.k, o.sub⟩

/-- Result of the outer agent loop: the final state (`.ok none` meaning the
fuel ran out with the loop still going), how many planner invocations
happened, and the total sub-agent dispatches. -/
structure LoopOut where
  res : Except PyErr (Option AgentState)
  pcalls : Nat
  sub : Nat

/-- agent_loop.py run_agent_system's `while True` loop, parameterised by the
planner step it invokes (the source calls run_agentic_planner; the
abstraction expresses that the driver itself has no iteration cap — only a
fuel bound of the model limits the recursion).  It stops exactly when the
returned state's final_message is truthy, and it propagates the step's
exceptions. -/
def loopDriver (step : Nat → AgentState → PlannerOut) :
    Nat → Nat → AgentState → LoopOut
  | 0, _, _ => ⟨.ok none, 0, 0⟩
  | fuel + 1, k, st =>
    let o := step k st
    match o.res with
    | .error e => ⟨.error e, 1, o.sub⟩
    | .ok st' =>
      if st'.final_message.truthy then ⟨.ok (some st'), 1, o.sub⟩
      else
        let rest := loopDriver step fuel o.k st'
        ⟨rest.res, rest.pcalls + 1, o.sub + rest.sub⟩

/-- The agent loop as the source wires it: the while-True driver invoking
run_agentic_planner. -/
def run_agent_system_loop (loads : Loads) (oracle : Oracle)
    (fuel k : Nat) (st : AgentState) : LoopOut :=
  loopDriver (run_agentic_planner loads oracle) fuel k st

/-- Python `x and len(x) > 0` (len raises TypeError on truthy unsized
values; short-circuits on falsy ones). -/
def pyAndLenPos (j : Json) : Except PyErr Bool :=
  if j.truthy then (j.pyLen).map (fun n => 0 < n) else .ok false

/-- Python `x and x.strip()` as a condition (strip raises AttributeError on
truthy non-strings). -/
def pyTruthyAndStripNonempty (j : Json) : Except PyErr Bool :=
  if j.truthy then
    match j with
    | .str s => .ok (!(pyStrip s).data.isEmpty)
    | _ => .error (noAttr j "strip")
  else .ok false

/-- agent_trace as a JSON value for the response dicts. -/
def traceJson (st : AgentState) : Json :=
  Json.arr (st.agent_trace.map Json.str)

/-- agent_loop.py run_agent_system, the part after the loop: the response
dict is selected from the trace.  The outer guard is the substring test
`"end" in str(agent_trace)`; inside it the branch order is buildplanner,
then modcoach, then diagnostic, then info, with a simple_response default;
outside it the type is unknown. -/
def run_agent_system_post (st : AgentState) : Except PyErr (List (String × Json)) :=
  if pyContains (pyStrOfTraceList st.agent_trace) "end" then
    if st.agent_trace.any (fun a => pyContains a "buildplanner") then
      match pyAndLenPos st.build_plan with
      | .error e => .error e
      | .ok b =>
        .ok [("type", Json.str "buildplanner"),
             ("build_plan", st.build_plan),
             ("message", Json.str (if b then
                "Here's your personalized build plan for your car!"
              else
                "I'd be happy to help you create a build plan! Tell me about your car and what you want to achieve.")),
             ("agent_trace", traceJson st)]
    else if st.agent_trace.any (fun a => pyContains a "modcoach") then
      match pyAndLenPos st.mod_recommendations with
      | .error e => .error e
      | .ok b =>
        .ok [("type", Json.str "modcoach"),
             ("mod_recommendations", st.mod_recommendations),
             ("message", Json.str (if b then
                "Here are my recommendations for your next mods!"
              else
                "I'd love to help you choose your next modifications! What kind of performance are you looking for?")),
             ("agent_trace", traceJson st)]
    else if st.agent_trace.any (fun a => pyContains a "diagnostic") then
      match pyTruthyAndStripNonempty st.symptom_summary with
      | .error e => .error e
      | .ok b =>
        .ok [("type", Json.str "diagnostic"),
             ("symptom_summary", st.symptom_summary),
             ("followup_recommendations", st.followup_recommendations),
             ("message", Json.str (if b then
                "Here's my diagnosis of your car's issue:"
              else
                "I'd be happy to help diagnose any car issues. Could you describe what symptoms you're experiencing?")),
             ("agent_trace", traceJson st)]
    else if st.agent_trace.any (fun a => pyContains a "info") then
      .ok [("type", Json.str "info"),
           ("response", st.info_answer),
           ("message", st.info_answer),
           ("agent_trace", traceJson st)]
    else
      .ok [("type", Json.str "simple_response"),
           ("message", st.final_message),
           ("agent_trace", traceJson st)]
  else
    .ok [("type", Json.str "unknown"),
         ("message", Json.str "The agentic planner encountered an unexpected situation."),
         ("agent_trace", traceJson st),
         ("debug_info", Json.obj
            [("final_message", st.final_message),
             ("flags", st.flags),
             ("tool_trace", Json.arr st.tool_trace)])]

/-- The whole of run_agent_system: the while-True loop and then the response
selection. -/
def run_agent_system (loads : Loads) (oracle : Oracle)
    (fuel k : Nat) (st : AgentState) : Except PyErr (Option (List (String × Json))) :=
  match (run_agent_system_loop loads oracle fuel k st).res with
  | .error e => .error e
  | .ok none => .ok none
  | .ok (some st') => (run_agent_system_post st').map some

/-- response_formatter.py determine_primary_agent (not reached by the
serving path: views.py returns run_agent_system's dict directly and nothing
imports response_formatter). -/
def determine_primary_agent (agent_trace : List String) : String :=
  if agent_trace.any (fun a => pyContains (pyLower a) "buildplanner") then "buildplanner"
  else if agent_trace.any (fun a => pyContains (pyLower a) "diagnostic") then "diagnostic"
  else if agent_trace.any (fun a => pyContains (pyLower a) "modcoach") then "modcoach"
  else if agent_trace.any (fun a => pyContains (pyLower a) "info") then "info"
  else "info"

/-- Lookup of a key in a response dict. -/
def respGet (resp : List (String × Json)) (key : String) : Option Json :=
  jget resp key

/-- The raw text of a planner reply choosing info (as the completion
service would return it). -/
def sActInfo : String := "\x7b\"action\": \"info\"\x7d"

/-- The raw text of a planner reply choosing end. -/
def sActEnd : String := "\x7b\"action\": \"end\"\x7d"

/-- A concrete json.loads fragment, agreeing with CPython's json.loads on
every string it is applied to in the fixtures below: the two planner
replies decode to the corresponding one-key dicts, "[]" decodes to the
empty list, and everything else raises JSONDecodeError. -/
def loadsCx : Loads := fun s =>
  if s = sActInfo then .ok (Json.obj [("action", Json.str "info")])
  else if s = sActEnd then .ok (Json.obj [("action", Json.str "end")])
  else if s = "[]" then .ok (Json.arr [])
  else .error "Expecting value: line 1 column 1 (char 0)"

/-- A concrete freshly seeded session state. -/
def cxSeed : AgentState := seedState "hi" "u1" "s1" (Json.obj [])

/-- Completion behaviour: every call answers with the info action. -/
def oracleInfoAll : Oracle := fun _ => .ok sActInfo

/-- Completion behaviour: every call answers with the end action. -/
def oracleEndNow : Oracle := fun _ => .ok sActEnd

/-- Completion behaviour: the planner's 5th decision call (index 8, after
four info rounds of two calls each) answers end, everything else info. -/
def oracleInfoThenEnd : Oracle := fun k => if k = 8 then .ok sActEnd else .ok sActInfo

/-- Unwrap an .ok state (fixtures only; the default is never reached). -/
def okState (r : Except PyErr AgentState) (d : AgentState) : AgentState :=
  match r with
  | .ok s => s
  | .error _ => d

/-- The state a concrete end-choosing run returns (fixture). -/
def cxPlannerEndState : AgentState :=
  okState (run_agentic_planner loadsCx oracleEndNow 0 cxSeed).res cxSeed

/-- The full-cap planner run of the fixtures (planner replies always info). -/
def cxPlanFullState : AgentState :=
  okState (planLoop loadsCx oracleInfoAll 5 0 0 0 cxSeed).res cxSeed

/-- A hypothetical planner step that returns without setting final_message
(the counterfactual the spec's loop cap is supposed to guard against). -/
def stubPlannerStep : Nat → AgentState → PlannerOut :=
  fun k st => ⟨Except.ok st, k, 0⟩

/-- The action set the specification names (it also lists profile_updater,
which parse_agentic_output never accepts). -/
def spec_action_set : List String :=
  ["info", "diagnostic", "modcoach", "buildplanner", "profile_updater", "end"]

/-- The "action" entry of a decoded planner reply, when the reply is a dict. -/
def actionField (j : Json) : Option Json :=
  match j with
  | .obj fs => jget fs "action"
  | _ => none

/-- Whether a modelled call raised. -/
def isRaise {α : Type} : Except PyErr α → Bool
  | .error _ => true
  | .ok _ => false

/-- Decode-failure payload of parse_info_initial (note: no parse_error
marker). -/
def infoDefaultPayload : List (String × Json) :=
  [("answer", Json.str ""), ("tool_call", Json.null)]

/-- Decode-failure payload of parse_diagnostic_output. -/
def diagDefaultPayload : List (String × Json) :=
  [("symptom_summary", Json.str ""), ("followup_recommendations", Json.arr []),
   ("error", Json.str "parse_error")]

/-- Decode-failure payload of parse_modcoach_output. -/
def modcoachDefaultPayload : List (String × Json) :=
  [("mod_recommendations", Json.arr []),
   ("additional_flags", Json.obj [("parse_error", Json.bool true)]),
   ("tool_call", Json.null)]

/-- Decode-failure payload of parse_buildplanner_output. -/
def buildDefaultPayload : List (String × Json) :=
  [("build_plan", Json.arr []), ("tool_call", Json.null), ("error", Json.str "parse_error")]

/-- A final session state in which both diagnostic and modcoach ran before
end (their planner trace entries are present), with concrete result slots. -/
def cxStC9 : AgentState :=
  { cxSeed with
      agent_trace := ["AgenticPlanner[1] → diagnostic: checked the misfire",
                      "AgenticPlanner[2] → modcoach: suggested upgrades",
                      "AgenticPlanner[3] → end: done"],
      symptom_summary := Json.str "Likely ignition coil failure.",
      mod_recommendations := Json.arr [Json.obj [("name", Json.str "intake")]],
      final_message := Json.str sessionCompleteMsg }

example : stripFences sActInfo = sActInfo := rfl
example : (parse_agentic_output loadsCx sActInfo).action = "info" := rfl
example : (parse_agentic_output loadsCx sActEnd).action = "end" := rfl
example : (parse_agentic_output loadsCx "garbage").action = "end" := rfl
example : (planLoop loadsCx oracleInfoAll 5 0 0 0 cxSeed).iteration = 5 := rfl
example : (planLoop loadsCx oracleInfoAll 5 0 0 0 cxSeed).k = 10 := rfl
example : (planLoop loadsCx oracleInfoAll 5 0 0 0 cxSeed).sub = 5 := rfl
example :
    (okState (planLoop loadsCx oracleInfoAll 5 0 0 0 cxSeed).res cxSeed).agent_trace =
      ["AgenticPlanner[1] → info: ", "AgenticPlanner[2] → info: ",
       "AgenticPlanner[3] → info: ", "AgenticPlanner[4] → info: ",
       "AgenticPlanner[5] → info: "] := rfl
example :
    (okState (run_agentic_planner loadsCx oracleInfoAll 0 cxSeed).res cxSeed).final_message =
      Json.str maxIterMsg := rfl
example :
    (okState (run_agentic_planner loadsCx oracleEndNow 0 cxSeed).res cxSeed).final_message =
      Json.str sessionCompleteMsg := rfl
example : (planLoop loadsCx oracleEndNow 5 0 0 0 cxSeed).iteration = 1 := rfl
example :
    (okState (planLoop loadsCx oracleInfoThenEnd 5 0 0 0 cxSeed).res cxSeed).final_message =
      Json.str sessionCompleteMsg := rfl
example :
    (okState (run_agentic_planner loadsCx oracleInfoThenEnd 0 cxSeed).res cxSeed).final_message =
      Json.str maxIterMsg := rfl
example :
    (info_pipeline loadsCx oracleInfoAll 0 cxSeed).1.final_message = Json.null := rfl
example :
    (info_pipeline loadsCx oracleInfoAll 0 cxSeed).1.info_answer =
      Json.str infoAnswerDefault := rfl
example : (run_agent_system_loop loadsCx oracleEndNow 1 0 cxSeed).pcalls = 1 := rfl

/-- Invariant of the planner's while-loop: a normally returned state either
already has a truthy final_message (the end-branch break) or the loop ran
its full fuel, leaving iteration = start + fuel; and at most one sub-agent
dispatch happens per iteration. -/
lemma planLoop_spec (loads : Loads) (oracle : Oracle) :
    ∀ (r it k sub : Nat) (st : AgentState),
      (∀ st', (planLoop loads oracle r it k sub st).res = Except.ok st' →
        st'.final_message.truthy = true ∨
          (planLoop loads oracle r it k sub st).iteration = it + r)
      ∧ (planLoop loads oracle r it k sub st).sub ≤ sub + r := by
  intro r
  induction r with
  | zero =>
      intro it k sub st
      constructor
      · intro st' h
        right
        simp [planLoop]
      · simp [planLoop]
  | succ n ih =>
      intro it k sub st
      rw [planLoop]
      cases ho : oracle k with
      | error msg =>
          refine ⟨fun st' h => ?_, ?_⟩
          · simp at h
          · simp
      | ok raw =>
          simp only []
          split_ifs with h1 h2 h3 h4 h5 h6
          · exact ⟨fun st' h => ((ih _ _ _ _).1 st' h).imp id (fun hh => by omega),
              le_trans (ih _ _ _ _).2 (by omega)⟩
          · exact ⟨fun st' h => ((ih _ _ _ _).1 st' h).imp id (fun hh => by omega),
              le_trans (ih _ _ _ _).2 (by omega)⟩
          · exact ⟨fun st' h => ((ih _ _ _ _).1 st' h).imp id (fun hh => by omega),
              le_trans (ih _ _ _ _).2 (by omega)⟩
          · exact ⟨fun st' h => ((ih _ _ _ _).1 st' h).imp id (fun hh => by omega),
              le_trans (ih _ _ _ _).2 (by omega)⟩
          · refine ⟨fun st' h => ?_, by simp⟩
            simp at h
            subst h
            exact Or.inl h6
          · refine ⟨fun st' h => ?_, by simp⟩
            simp at h
            subst h
            exact Or.inl rfl
          · exact ⟨fun st' h => ((ih _ _ _ _).1 st' h).imp id (fun hh => by omega),
              le_trans (ih _ _ _ _).2 (by omega)⟩

/-- A truthy value is not None. -/
lemma Json.truthy_ne_null {j : Json} (h : j.truthy = true) : j ≠ Json.null := by
  intro he
  subst he
  simp [Json.truthy] at h

/-- Every normal return of run_agentic_planner carries a truthy
final_message: the end-branch ensures one before breaking, and every other
non-raising exit runs the loop to its 5th iteration, after which the
max-iterations overwrite applies. -/
lemma run_agentic_planner_ok_truthy (loads : Loads) (oracle : Oracle)
    (k : Nat) (st st' : AgentState)
    (h : (run_agentic_planner loads oracle k st).res = Except.ok st') :
    st'.final_message.truthy = true := by
  rw [run_agentic_planner] at h
  cases hp : (planLoop loads oracle 5 0 k 0 st).res with
  | error e => simp [hp] at h
  | ok st1 =>
      simp only [hp] at h
      by_cases h5 : 5 ≤ (planLoop loads oracle 5 0 k 0 st).iteration
      · simp only [h5, if_true] at h
        simp at h
        subst h
        rfl
      · simp only [h5, if_false] at h
        simp at h
        subst h
        rcases (planLoop_spec loads oracle 5 0 k 0 st).1 st1 hp with ht | hit
        · exact ht
        · omega

/-- run_agentic_planner dispatches at most 5 sub-agent pipelines. -/
lemma run_agentic_planner_sub_le (loads : Loads) (oracle : Oracle)
    (k : Nat) (st : AgentState) :
    (run_agentic_planner loads oracle k st).sub ≤ 5 := by
  rw [run_agentic_planner]
  have hs := (planLoop_spec loads oracle 5 0 k 0 st).2
  cases hp : (planLoop loads oracle 5 0 k 0 st).res with
  | error e =>
      simp only [hp]
      simpa using hs
  | ok st1 =>
      simp only [hp]
      by_cases h5 : 5 ≤ (planLoop loads oracle 5 0 k 0 st).iteration
      · simp only [h5, if_true]
        simpa using hs
      · simp only [h5, if_false]
        simpa using hs

/-- With any positive fuel the agent loop resolves on its first planner
invocation: either that invocation raises, or it returns a state with a
truthy final_message and the loop breaks. -/
lemma run_agent_system_loop_first (loads : Loads) (oracle : Oracle)
    (fuel k : Nat) (st : AgentState) (hf : 1 ≤ fuel) :
    (run_agent_system_loop loads oracle fuel k st).res ≠ Except.ok none ∧
    (run_agent_system_loop loads oracle fuel k st).pcalls = 1 ∧
    (run_agent_system_loop loads oracle fuel k st).sub ≤ 5 := by
  obtain ⟨f, rfl⟩ : ∃ f, fuel = f + 1 := ⟨fuel - 1, by omega⟩
  rw [run_agent_system_loop, loopDriver]
  cases hp : (run_agentic_planner loads oracle k st).res with
  | error e =>
      refine ⟨by simp, by simp, ?_⟩
      simpa using run_agentic_planner_sub_le loads oracle k st
  | ok st' =>
      have ht := run_agentic_planner_ok_truthy loads oracle k st st' hp
      simp only [ht, if_true]
      refine ⟨by simp, by simp, ?_⟩
      simpa using run_agentic_planner_sub_le loads oracle k st

/-- C1: for every initial session state, every json.loads behaviour and
every completion-service behaviour (each call returns a string or raises),
the agent loop terminates — with any positive fuel the modelled while-True
recursion has already resolved, so it never consumes the fuel — and the
turn performs at most loop_cap × planner_cap = 10 × 5 sub-agent invocations
(the code in fact performs at most planner_cap = 5, since the loop body
runs once). -/
theorem agent_loop_terminates_within_cap_product
    (loads : Loads) (oracle : Oracle) (fuel k : Nat) (st : AgentState)
    (hf : 1 ≤ fuel) :
    (run_agent_system_loop loads oracle fuel k st).res ≠ Except.ok none ∧
    (run_agent_system_loop loads oracle fuel k st).sub ≤ 10 * 5 := by
  obtain ⟨h1, _, h3⟩ := run_agent_system_loop_first loads oracle fuel k st hf
  exact ⟨h1, le_trans h3 (by norm_num)⟩

/-- Witness for C1 at a concrete run (planner replies are always the info
action, so the planner runs all 5 iterations and caps out). -/
theorem agent_loop_terminates_within_cap_product_witness :
    (run_agent_system_loop loadsCx oracleInfoAll 1 0 cxSeed).res ≠ Except.ok none ∧
    (run_agent_system_loop loadsCx oracleInfoAll 1 0 cxSeed).sub ≤ 10 * 5 :=
  agent_loop_terminates_within_cap_product loadsCx oracleInfoAll 1 0 cxSeed (by norm_num)

/-- C10: whenever run_agentic_planner returns normally, the returned state
has a non-null final_message (both exit paths set it), so the uncapped
while-True loop of run_agent_system invokes the planner exactly once per
turn. -/
theorem planner_normal_return_final_message_nonnull
    (loads : Loads) (oracle : Oracle) (k : Nat) (st st' : AgentState)
    (h : (run_agentic_planner loads oracle k st).res = Except.ok st') :
    st'.final_message ≠ Json.null ∧
    ∀ fuel, 1 ≤ fuel → (run_agent_system_loop loads oracle fuel k st).pcalls = 1 := by
  refine ⟨Json.truthy_ne_null (run_agentic_planner_ok_truthy loads oracle k st st' h), ?_⟩
  intro fuel hf
  exact (run_agent_system_loop_first loads oracle fuel k st hf).2.1

/-- Witness for C10 at a concrete run. -/
theorem planner_normal_return_final_message_nonnull_witness :
    cxPlannerEndState.final_message ≠ Json.null ∧
    ∀ fuel, 1 ≤ fuel →
      (run_agent_system_loop loadsCx oracleEndNow fuel 0 cxSeed).pcalls = 1 :=
  planner_normal_return_final_message_nonnull loadsCx oracleEndNow 0 cxSeed
    cxPlannerEndState rfl

/-- Counterexample to C5: run_agent_system's driver is `while True` with no
iteration cap of its own.  With a planner invocation that returns without
setting final_message, the driver is still looping after 10 planner
invocations, and given an 11th unit of fuel it performs an 11th — there is
no cap-of-10 stop. -/
theorem agent_loop_driver_uncapped_counterexample :
    (loopDriver stubPlannerStep 10 0 cxSeed).res = Except.ok none ∧
    loopDriver stubPlannerStep 11 0 cxSeed = ⟨Except.ok none, 11, 0⟩ :=
  ⟨rfl, rfl⟩

/-- C5 amended: the driver has no cap of its own; it performs exactly one
planner invocation per turn because every normally returning planner
invocation leaves final_message truthy. -/
theorem agent_loop_single_planner_invocation
    (loads : Loads) (oracle : Oracle) (fuel k : Nat) (st : AgentState)
    (hf : 1 ≤ fuel) :
    (run_agent_system_loop loads oracle fuel k st).pcalls = 1 :=
  (run_agent_system_loop_first loads oracle fuel k st hf).2.1

/-- Witness for the amended C5 at a concrete run. -/
theorem agent_loop_single_planner_invocation_witness :
    (run_agent_system_loop loadsCx oracleEndNow 3 0 cxSeed).pcalls = 1 :=
  agent_loop_single_planner_invocation loadsCx oracleEndNow 3 0 cxSeed (by norm_num)

/-- Counterexample to C3: final_message is not written at most once per
turn.  From the seeded state (final_message null), when the planner chooses
end on its 5th iteration, the end-branch writes "Session complete. Happy
driving!", and the post-loop cap check (iteration >= max_iterations holds at
5) immediately overwrites it with the max-iterations notice — two writes
with different non-null values in one turn. -/
theorem final_message_overwritten_at_cap_counterexample :
    cxSeed.final_message = Json.null ∧
    (okState (planLoop loadsCx oracleInfoThenEnd 5 0 0 0 cxSeed).res cxSeed).final_message
      = Json.str sessionCompleteMsg ∧
    (okState (run_agentic_planner loadsCx oracleInfoThenEnd 0 cxSeed).res cxSeed).final_message
      = Json.str maxIterMsg ∧
    sessionCompleteMsg ≠ maxIterMsg :=
  ⟨rfl, rfl, rfl, by decide⟩

/-- C3 amended: final_message is null in the freshly seeded state and
non-null after every normal planner return (and it is the signal the loop
checks), but it is not single-assignment: the cap overwrite can replace an
already-set value. -/
theorem final_message_null_to_nonnull
    (loads : Loads) (oracle : Oracle) (k : Nat)
    (q uid sid : String) (cp : Json) (st' : AgentState)
    (h : (run_agentic_planner loads oracle k (seedState q uid sid cp)).res = Except.ok st') :
    (seedState q uid sid cp).final_message = Json.null ∧
    st'.final_message ≠ Json.null :=
  ⟨rfl, Json.truthy_ne_null
    (run_agentic_planner_ok_truthy loads oracle k (seedState q uid sid cp) st' h)⟩

/-- Witness for the amended C3 at a concrete run. -/
theorem final_message_null_to_nonnull_witness :
    (seedState "hi" "u1" "s1" (Json.obj [])).final_message = Json.null ∧
    cxPlannerEndState.final_message ≠ Json.null :=
  final_message_null_to_nonnull loadsCx oracleEndNow 0 "hi" "u1" "s1" (Json.obj [])
    cxPlannerEndState rfl

/-- Counterexample to C4: a run that hits the 5-iteration cap (planner
replies are always the info action) sets final_message to the
max-iterations notice but appends no trace entry recording the cap: the
trace holds exactly the five per-iteration entries and nothing else. -/
theorem max_iterations_without_trace_entry_counterexample :
    (run_agentic_planner loadsCx oracleInfoAll 0 cxSeed).res.map
        (fun s => (s.final_message, s.agent_trace)) =
      Except.ok (Json.str maxIterMsg,
        ["AgenticPlanner[1] → info: ", "AgenticPlanner[2] → info: ",
         "AgenticPlanner[3] → info: ", "AgenticPlanner[4] → info: ",
         "AgenticPlanner[5] → info: "]) :=
  rfl

/-- C4 amended: on every non-raising exit with iteration >= 5 the planner
forces final_message to the max-iterations notice, and leaves agent_trace
exactly as the loop left it (no cap entry is appended — the cap is only
printed to stdout). -/
theorem max_iterations_sets_message_no_trace_append
    (loads : Loads) (oracle : Oracle) (k : Nat) (st st1 : AgentState)
    (hok : (planLoop loads oracle 5 0 k 0 st).res = Except.ok st1)
    (hit : 5 ≤ (planLoop loads oracle 5 0 k 0 st).iteration) :
    ∃ st', (run_agentic_planner loads oracle k st).res = Except.ok st' ∧
      st'.final_message = Json.str maxIterMsg ∧
      st'.agent_trace = st1.agent_trace := by
  refine ⟨{ st1 with final_message := Json.str maxIterMsg }, ?_, rfl, rfl⟩
  rw [run_agentic_planner]
  simp only [hok, hit, if_true]

/-- Witness for the amended C4 at a concrete run. -/
theorem max_iterations_sets_message_no_trace_append_witness :
    ∃ st', (run_agentic_planner loadsCx oracleInfoAll 0 cxSeed).res = Except.ok st' ∧
      st'.final_message = Json.str maxIterMsg ∧
      st'.agent_trace = cxPlanFullState.agent_trace :=
  max_iterations_sets_message_no_trace_append loadsCx oracleInfoAll 0 cxSeed
    cxPlanFullState rfl (by decide)

/-- Counterexample to C6: a sub-agent pipeline that runs to completion (it
writes its result slot) leaves final_message exactly as it found it — null
here — so a pipeline never signals the loop. -/
theorem info_pipeline_leaves_final_message_null_counterexample :
    (info_pipeline loadsCx oracleInfoAll 0 cxSeed).1.final_message = Json.null ∧
    (info_pipeline loadsCx oracleInfoAll 0 cxSeed).1.info_answer =
      Json.str infoAnswerDefault :=
  ⟨rfl, rfl⟩

/-- C6 amended: no sub-agent pipeline (info, diagnostic, modcoach,
buildplanner) writes final_message; each returns it unchanged on every
path.  A single-agent turn therefore terminates only through the planner's
end action or its iteration cap. -/
theorem pipelines_preserve_final_message
    (loads : Loads) (oracle : Oracle) (k : Nat) (st : AgentState) :
    (info_pipeline loads oracle k st).1.final_message = st.final_message ∧
    (diagnostic_pipeline loads oracle k st).1.final_message = st.final_message ∧
    (mod_coach_pipeline loads oracle k st).1.final_message = st.final_message ∧
    (buildplanner_pipeline loads oracle k st).1.final_message = st.final_message := by
  refine ⟨?_, ?_, ?_, ?_⟩
  · unfold info_pipeline
    repeat' split
    all_goals rfl
  · unfold diagnostic_pipeline
    repeat' split
    all_goals rfl
  · unfold mod_coach_pipeline
    repeat' split
    all_goals rfl
  · unfold buildplanner_pipeline
    repeat' split
    all_goals rfl

/-- .data of a concatenation. -/
lemma strDataAppend (a b : String) : (a ++ b).data = a.data ++ b.data := by
  obtain ⟨xs⟩ := a
  obtain ⟨ys⟩ := b
  rfl

/-- Shape of every parse_agentic_output result: either the fail-closed end
decision with an "Error parsing response: " reasoning, or the decoded dict
carried an allowed action and the decision passes it through. -/
lemma parse_agentic_output_shape (loads : Loads) (response : String) :
    ((parse_agentic_output loads response).action = "end" ∧
      ∃ m, (parse_agentic_output loads response).reasoning = Json.str m ∧
        pyStartsWith m "Error parsing response: " = true) ∨
    (∃ fs a, loads (stripFences response) = Except.ok (Json.obj fs) ∧
      jget fs "action" = some (Json.str a) ∧ a ∈ allowed_actions ∧
      parse_agentic_output loads response = ⟨a, jgetD fs "reasoning" (Json.str "")⟩) := by
  cases hl : loads (stripFences response) with
  | error msg =>
      have hp : parse_agentic_output loads response =
          ⟨"end", Json.str ("Error parsing response: " ++ msg)⟩ := by
        simp only [parse_agentic_output, hl]
      exact Or.inl ⟨by rw [hp], "Error parsing response: " ++ msg, by rw [hp],
        by simp only [pyStartsWith, strDataAppend]; rfl⟩
  | ok j =>
      cases j with
      | obj fs =>
          cases hact : jget fs "action" with
          | none =>
              have hp : parse_agentic_output loads response =
                  ⟨"end", Json.str "Error parsing response: Invalid action: None"⟩ := by
                simp only [parse_agentic_output, hl, hact]
              exact Or.inl ⟨by rw [hp], "Error parsing response: Invalid action: None",
                by rw [hp], by simp only [pyStartsWith]; rfl⟩
          | some v =>
              cases v with
              | str a =>
                  by_cases hmem : a ∈ allowed_actions
                  · have hp : parse_agentic_output loads response =
                        ⟨a, jgetD fs "reasoning" (Json.str "")⟩ := by
                      simp only [parse_agentic_output, hl, hact]
                      rw [if_pos hmem]
                    exact Or.inr ⟨fs, a, rfl, hact, hmem, hp⟩
                  · have hp : parse_agentic_output loads response =
                        ⟨"end", Json.str ("Error parsing response: Invalid action: " ++ a)⟩ := by
                      simp only [parse_agentic_output, hl, hact]
                      rw [if_neg hmem]
                    exact Or.inl ⟨by rw [hp], "Error parsing response: Invalid action: " ++ a,
                      by rw [hp], by simp only [pyStartsWith, strDataAppend]; rfl⟩
              | null =>
                  have hp : parse_agentic_output loads response =
                      ⟨"end", Json.str ("Error parsing response: Invalid action: " ++
                        Json.pyStr Json.null)⟩ := by
                    simp only [parse_agentic_output, hl, hact]
                  exact Or.inl ⟨by rw [hp], _, by rw [hp],
                    by simp only [pyStartsWith, strDataAppend]; rfl⟩
              | bool b =>
                  have hp : parse_agentic_output loads response =
                      ⟨"end", Json.str ("Error parsing response: Invalid action: " ++
                        Json.pyStr (Json.bool b))⟩ := by
                    simp only [parse_agentic_output, hl, hact]
                  exact Or.inl ⟨by rw [hp], _, by rw [hp],
                    by simp only [pyStartsWith, strDataAppend]; rfl⟩
              | num n =>
                  have hp : parse_agentic_output loads response =
                      ⟨"end", Json.str ("Error parsing response: Invalid action: " ++
                        Json.pyStr (Json.num n))⟩ := by
                    simp only [parse_agentic_output, hl, hact]
                  exact Or.inl ⟨by rw [hp], _, by rw [hp],
                    by simp only [pyStartsWith, strDataAppend]; rfl⟩
              | arr xs =>
                  have hp : parse_agentic_output loads response =
                      ⟨"end", Json.str ("Error parsing response: Invalid action: " ++
                        Json.pyStr (Json.arr xs))⟩ := by
                    simp only [parse_agentic_output, hl, hact]
                  exact Or.inl ⟨by rw [hp], _, by rw [hp],
                    by simp only [pyStartsWith, strDataAppend]; rfl⟩
              | obj gs =>
                  have hp : parse_agentic_output loads response =
                      ⟨"end", Json.str ("Error parsing response: Invalid action: " ++
                        Json.pyStr (Json.obj gs))⟩ := by
                    simp only [parse_agentic_output, hl, hact]
                  exact Or.inl ⟨by rw [hp], _, by rw [hp],
                    by simp only [pyStartsWith, strDataAppend]; rfl⟩
      | null =>
          have hp : parse_agentic_output loads response =
              ⟨"end", Json.str ("Error parsing response: " ++ noAttrMsg Json.null "get")⟩ := by
            simp only [parse_agentic_output, hl]
          exact Or.inl ⟨by rw [hp], _, by rw [hp],
            by simp only [pyStartsWith, strDataAppend]; rfl⟩
      | bool b =>
          have hp : parse_agentic_output loads response =
              ⟨"end", Json.str ("Error parsing response: " ++ noAttrMsg (Json.bool b) "get")⟩ := by
            simp only [parse_agentic_output, hl]
          exact Or.inl ⟨by rw [hp], _, by rw [hp],
            by simp only [pyStartsWith, strDataAppend]; rfl⟩
      | num n =>
          have hp : parse_agentic_output loads response =
              ⟨"end", Json.str ("Error parsing response: " ++ noAttrMsg (Json.num n) "get")⟩ := by
            simp only [parse_agentic_output, hl]
          exact Or.inl ⟨by rw [hp], _, by rw [hp],
            by simp only [pyStartsWith, strDataAppend]; rfl⟩
      | str s =>
          have hp : parse_agentic_output loads response =
              ⟨"end", Json.str ("Error parsing response: " ++ noAttrMsg (Json.str s) "get")⟩ := by
            simp only [parse_agentic_output, hl]
          exact Or.inl ⟨by rw [hp], _, by rw [hp],
            by simp only [pyStartsWith, strDataAppend]; rfl⟩
      | arr xs =>
          have hp : parse_agentic_output loads response =
              ⟨"end", Json.str ("Error parsing response: " ++ noAttrMsg (Json.arr xs) "get")⟩ := by
            simp only [parse_agentic_output, hl]
          exact Or.inl ⟨by rw [hp], _, by rw [hp],
            by simp only [pyStartsWith, strDataAppend]; rfl⟩

/-- The five code-level actions are among the six the spec names. -/
lemma allowed_sub_spec : ∀ a, a ∈ allowed_actions → a ∈ spec_action_set := by
  intro a ha
  simp only [allowed_actions, List.mem_cons, List.mem_singleton] at ha
  rcases ha with rfl | rfl | rfl | rfl | rfl | h
  · decide
  · decide
  · decide
  · decide
  · decide
  · simp at h

/-- C2: parse_agentic_output always yields an action inside the spec's
closed set, and whenever the reply is undecodable, lacks an action field,
or carries an action outside that set, the decision is end with a synthetic
"Error parsing response: " reasoning; it never raises (its Python body is
fully wrapped in except Exception, so the model is a total function). -/
theorem parse_agentic_output_fail_closed (loads : Loads) (response : String) :
    (parse_agentic_output loads response).action ∈ spec_action_set ∧
    (∀ msg, loads (stripFences response) = Except.error msg →
      (parse_agentic_output loads response).action = "end" ∧
      ∃ m, (parse_agentic_output loads response).reasoning = Json.str m ∧
        pyStartsWith m "Error parsing response: " = true) ∧
    (∀ j, loads (stripFences response) = Except.ok j →
      (∀ a, actionField j = some (Json.str a) → a ∉ spec_action_set) →
      (parse_agentic_output loads response).action = "end" ∧
      ∃ m, (parse_agentic_output loads response).reasoning = Json.str m ∧
        pyStartsWith m "Error parsing response: " = true) := by
  rcases parse_agentic_output_shape loads response with
    ⟨hend, m, hm, hpre⟩ | ⟨fs, a, hl, hact, hmem, heq⟩
  · refine ⟨?_, fun _ _ => ⟨hend, m, hm, hpre⟩, fun _ _ _ => ⟨hend, m, hm, hpre⟩⟩
    rw [hend]
    decide
  · refine ⟨?_, ?_, ?_⟩
    · rw [heq]
      exact allowed_sub_spec a hmem
    · intro msg hmsg
      rw [hl] at hmsg
      exact absurd hmsg (by simp)
    · intro j hj hno
      rw [hl] at hj
      injection hj with hj
      subst hj
      exact absurd (allowed_sub_spec a hmem) (hno a (by simp [actionField, hact]))

/-- C7: each sub-agent pipeline is total (its Python body is wrapped in
except Exception, so the model returns a plain state) and always writes its
dedicated result slot: the slot of the returned state is the canned
capability fallback, or — when the completion returned text whose decode is
a dict — the value extracted from that dict (which is how an empty or
trivial query still leaves the slot defined). -/
theorem pipelines_total_and_write_result_slot
    (loads : Loads) (oracle : Oracle) (k : Nat) (st : AgentState) :
    ((info_pipeline loads oracle k st).1.info_answer = Json.str infoFallbackMsg ∨
      ∃ r j, oracle k = Except.ok r ∧ loads (stripFencesSlice r) = Except.ok j ∧
        j.isObj = true ∧
        (info_pipeline loads oracle k st).1.info_answer =
          j.getD "answer" (Json.str infoAnswerDefault)) ∧
    ((diagnostic_pipeline loads oracle k st).1.symptom_summary = Json.str diagFallbackMsg ∨
      ∃ r j, oracle k = Except.ok r ∧ loads (stripFencesSlice r) = Except.ok j ∧
        j.isObj = true ∧ (j.getD "diagnosis" (Json.obj [])).isObj = true ∧
        (diagnostic_pipeline loads oracle k st).1.symptom_summary =
          (j.getD "diagnosis" (Json.obj [])).getD "explanation" (Json.str "")) ∧
    ((mod_coach_pipeline loads oracle k st).1.mod_recommendations = modFallbackList ∨
      ∃ r j, oracle k = Except.ok r ∧ loads (stripFencesSlice r) = Except.ok j ∧
        j.isObj = true ∧
        (mod_coach_pipeline loads oracle k st).1.mod_recommendations =
          j.getD "recommendations" (Json.arr [])) ∧
    ((buildplanner_pipeline loads oracle k st).1.build_plan = buildFallbackList ∨
      ∃ r j, oracle k = Except.ok r ∧ loads (stripFencesSlice r) = Except.ok j ∧
        j.isObj = true ∧
        (buildplanner_pipeline loads oracle k st).1.build_plan =
          j.getD "build_plan" (Json.arr [])) := by
  refine ⟨?_, ?_, ?_, ?_⟩
  · cases ho : oracle k with
    | error e => left; simp only [info_pipeline, ho]
    | ok r =>
      cases hl : loads (stripFencesSlice r) with
      | error m => left; simp only [info_pipeline, ho, hl]
      | ok j =>
        cases j with
        | obj fs =>
            right
            exact ⟨r, Json.obj fs, rfl, hl, rfl,
              by simp only [info_pipeline, ho, hl, Json.getD]⟩
        | null => left; simp only [info_pipeline, ho, hl]
        | bool b => left; simp only [info_pipeline, ho, hl]
        | num n => left; simp only [info_pipeline, ho, hl]
        | str s => left; simp only [info_pipeline, ho, hl]
        | arr xs => left; simp only [info_pipeline, ho, hl]
  · cases ho : oracle k with
    | error e => left; simp only [diagnostic_pipeline, ho]
    | ok r =>
      cases hl : loads (stripFencesSlice r) with
      | error m => left; simp only [diagnostic_pipeline, ho, hl]
      | ok j =>
        cases j with
        | obj fs =>
            cases hd : jgetD fs "diagnosis" (Json.obj []) with
            | obj ds =>
                right
                exact ⟨r, Json.obj fs, rfl, hl, rfl,
                  by simp only [Json.getD, hd, Json.isObj],
                  by simp only [diagnostic_pipeline, ho, hl, hd, Json.getD]⟩
            | null => left; simp only [diagnostic_pipeline, ho, hl, hd]
            | bool b => left; simp only [diagnostic_pipeline, ho, hl, hd]
            | num n => left; simp only [diagnostic_pipeline, ho, hl, hd]
            | str s => left; simp only [diagnostic_pipeline, ho, hl, hd]
            | arr xs => left; simp only [diagnostic_pipeline, ho, hl, hd]
        | null => left; simp only [diagnostic_pipeline, ho, hl]
        | bool b => left; simp only [diagnostic_pipeline, ho, hl]
        | num n => left; simp only [diagnostic_pipeline, ho, hl]
        | str s => left; simp only [diagnostic_pipeline, ho, hl]
        | arr xs => left; simp only [diagnostic_pipeline, ho, hl]
  · cases ho : oracle k with
    | error e => left; simp only [mod_coach_pipeline, ho]
    | ok r =>
      cases hl : loads (stripFencesSlice r) with
      | error m => left; simp only [mod_coach_pipeline, ho, hl]
      | ok j =>
        cases j with
        | obj fs =>
            right
            exact ⟨r, Json.obj fs, rfl, hl, rfl,
              by simp only [mod_coach_pipeline, ho, hl, Json.getD]⟩
        | null => left; simp only [mod_coach_pipeline, ho, hl]
        | bool b => left; simp only [mod_coach_pipeline, ho, hl]
        | num n => left; simp only [mod_coach_pipeline, ho, hl]
        | str s => left; simp only [mod_coach_pipeline, ho, hl]
        | arr xs => left; simp only [mod_coach_pipeline, ho, hl]
  · cases ho : oracle k with
    | error e => left; simp only [buildplanner_pipeline, ho]
    | ok r =>
      cases hl : loads (stripFencesSlice r) with
      | error m => left; simp only [buildplanner_pipeline, ho, hl]
      | ok j =>
        cases j with
        | obj fs =>
            right
            exact ⟨r, Json.obj fs, rfl, hl, rfl,
              by simp only [buildplanner_pipeline, ho, hl, Json.getD]⟩
        | null => left; simp only [buildplanner_pipeline, ho, hl]
        | bool b => left; simp only [buildplanner_pipeline, ho, hl]
        | num n => left; simp only [buildplanner_pipeline, ho, hl]
        | str s => left; simp only [buildplanner_pipeline, ho, hl]
        | arr xs => left; simp only [buildplanner_pipeline, ho, hl]

/-- Counterexample to C8: the standalone response parsers are not total.
"[]" decodes (json.loads succeeds) to a list, whose missing `.get` raises
AttributeError past the parser, since only json.JSONDecodeError is caught;
and on a genuine decode failure parse_info_initial returns its default
payload without any error: "parse_error" marker. -/
theorem parsers_raise_on_nonobject_counterexample :
    isRaise (parse_info_initial loadsCx "[]") = true ∧
    parse_info_initial loadsCx "not json" =
      Except.ok [("answer", Json.str ""), ("tool_call", Json.null)] ∧
    isRaise (parse_diagnostic_output loadsCx "[]") = true ∧
    isRaise (parse_modcoach_output loadsCx "[]") = true ∧
    isRaise (parse_buildplanner_output loadsCx "[]") = true :=
  ⟨rfl, rfl, rfl, rfl, rfl⟩

/-- C8 amended: on decode failure each parser returns its fixed default
payload without raising (only diagnostic and buildplanner carry an
error: "parse_error" marker; info carries none and modcoach flags it in
additional_flags), but on input that decodes to a non-dict every parser
raises AttributeError — only json.JSONDecodeError is caught. -/
theorem parsers_default_on_decode_failure_but_raise_on_nonobject
    (loads : Loads) (s : String) :
    (∀ msg, loads (stripFences s) = Except.error msg →
      parse_info_initial loads s = Except.ok infoDefaultPayload ∧
      parse_diagnostic_output loads s = Except.ok diagDefaultPayload ∧
      parse_modcoach_output loads s = Except.ok modcoachDefaultPayload ∧
      parse_buildplanner_output loads s = Except.ok buildDefaultPayload) ∧
    (∀ j, loads (stripFences s) = Except.ok j → j.isObj = false →
      isRaise (parse_info_initial loads s) = true ∧
      isRaise (parse_diagnostic_output loads s) = true ∧
      isRaise (parse_modcoach_output loads s) = true ∧
      isRaise (parse_buildplanner_output loads s) = true) := by
  cases hl : loads (stripFences s) with
  | error msg =>
      constructor
      · intro m hm
        refine ⟨?_, ?_, ?_, ?_⟩
        · simp only [parse_info_initial, hl, infoDefaultPayload]
        · simp only [parse_diagnostic_output, hl, diagDefaultPayload]
        · simp only [parse_modcoach_output, hl, modcoachDefaultPayload]
        · simp only [parse_buildplanner_output, hl, buildDefaultPayload]
      · intro j hj hobj
        simp at hj
  | ok j =>
      constructor
      · intro m hm
        simp at hm
      · intro j' hj' hobj
        injection hj' with hj'
        subst hj'
        cases j with
        | obj fs => simp [Json.isObj] at hobj
        | null =>
            refine ⟨?_, ?_, ?_, ?_⟩ <;>
              simp only [parse_info_initial, parse_diagnostic_output,
                parse_modcoach_output, parse_buildplanner_output, hl, isRaise]
        | bool b =>
            refine ⟨?_, ?_, ?_, ?_⟩ <;>
              simp only [parse_info_initial, parse_diagnostic_output,
                parse_modcoach_output, parse_buildplanner_output, hl, isRaise]
        | num n =>
            refine ⟨?_, ?_, ?_, ?_⟩ <;>
              simp only [parse_info_initial, parse_diagnostic_output,
                parse_modcoach_output, parse_buildplanner_output, hl, isRaise]
        | str t =>
            refine ⟨?_, ?_, ?_, ?_⟩ <;>
              simp only [parse_info_initial, parse_diagnostic_output,
                parse_modcoach_output, parse_buildplanner_output, hl, isRaise]
        | arr xs =>
            refine ⟨?_, ?_, ?_, ?_⟩ <;>
              simp only [parse_info_initial, parse_diagnostic_output,
                parse_modcoach_output, parse_buildplanner_output, hl, isRaise]

/-- Counterexample to C9: in the response actually emitted (views.py returns
run_agent_system's dict directly; determine_primary_agent is never called by
the serving path), a turn in which both diagnostic and modcoach ran gets
type "modcoach": run_agent_system checks modcoach before diagnostic.  The
unused determine_primary_agent would have said "diagnostic". -/
theorem emitted_type_modcoach_over_diagnostic_counterexample :
    cxStC9.agent_trace.any (fun a => pyContains a "diagnostic") = true ∧
    cxStC9.agent_trace.any (fun a => pyContains a "modcoach") = true ∧
    (run_agent_system_post cxStC9).map (fun resp => respGet resp "type") =
      Except.ok (some (Json.str "modcoach")) ∧
    determine_primary_agent cxStC9.agent_trace = "diagnostic" :=
  ⟨rfl, rfl, rfl, rfl⟩

/-- C9 amended: the priority order buildplanner > diagnostic > modcoach >
info with default info holds of response_formatter.py's
determine_primary_agent, but that function is dead code on the serving
path; the emitted response type comes from run_agent_system, whose priority
is buildplanner > modcoach > diagnostic > info — so a turn in which
modcoach ran (and buildplanner did not) is emitted as "modcoach" even when
diagnostic also ran. -/
theorem response_type_priority_amended (st : AgentState)
    (hend : pyContains (pyStrOfTraceList st.agent_trace) "end" = true)
    (hbp : st.agent_trace.any (fun a => pyContains a "buildplanner") = false)
    (hmc : st.agent_trace.any (fun a => pyContains a "modcoach") = true)
    (hlbp : st.agent_trace.any (fun a => pyContains (pyLower a) "buildplanner") = false)
    (hldg : st.agent_trace.any (fun a => pyContains (pyLower a) "diagnostic") = true)
    (hmr : st.mod_recommendations = Json.null ∨ ∃ xs, st.mod_recommendations = Json.arr xs) :
    (∃ b : Bool, run_agent_system_post st =
      Except.ok [("type", Json.str "modcoach"),
        ("mod_recommendations", st.mod_recommendations),
        ("message", Json.str (if b then
            "Here are my recommendations for your next mods!"
          else
            "I'd love to help you choose your next modifications! What kind of performance are you looking for?")),
        ("agent_trace", traceJson st)]) ∧
    determine_primary_agent st.agent_trace = "diagnostic" := by
  constructor
  · unfold run_agent_system_post
    rw [if_pos hend, if_neg (by simp [hbp]), if_pos hmc]
    rcases hmr with hnull | ⟨xs, harr⟩
    · rw [hnull]
      exact ⟨false, rfl⟩
    · rw [harr]
      cases xs with
      | nil => exact ⟨false, rfl⟩
      | cons y ys =>
          refine ⟨true, ?_⟩
          have hp : pyAndLenPos (Json.arr (y :: ys)) = Except.ok true := by
            simp [pyAndLenPos, Json.truthy, Json.pyLen, Except.map]
          rw [hp]
  · unfold determine_primary_agent
    rw [if_neg (by simp [hlbp]), if_pos hldg]

/-- Witness for the amended C9 at the concrete two-capability state. -/
theorem response_type_priority_amended_witness :
    (∃ b : Bool, run_agent_system_post cxStC9 =
      Except.ok [("type", Json.str "modcoach"),
        ("mod_recommendations", cxStC9.mod_recommendations),
        ("message", Json.str (if b then
            "Here are my recommendations for your next mods!"
          else
            "I'd love to help you choose your next modifications! What kind of performance are you looking for?")),
        ("agent_trace", traceJson cxStC9)]) ∧
    determine_primary_agent cxStC9.agent_trace = "diagnostic" :=
  response_type_priority_amended cxStC9 rfl rfl rfl rfl rfl
    (Or.inr ⟨[Json.obj [("name", Json.str "intake")]], rfl⟩)

end TalonAI
